import Mathlib

/-
  Verification development for the SwiftShip logistics repository.

  The definitions below are a shallow embedding of the orchestration-relevant
  JavaScript source files:

  * `src/unnamed/part_006` (the file imported as `utils/agents.mjs`): the
    `converse` agent reasoning loop, `sanitizeResponse`, `MAX_ITERATIONS`;
  * `src/api/functions/agents/triage.mjs`: the supervisor Lambda `handler`;
  * `src/api/functions/tools/process-refund.mjs`, `allocate-inventory.mjs`,
    `send-email.mjs`, and the change-order-status / duplicate-order tools
    (in `src/unnamed`): the domain tool handlers;

  External collaborators (the Bedrock model call, DynamoDB, SES, the Momento
  event channel, the AgentCore memory store) are modelled as explicit function
  parameters or injected outcome environments, exactly at the call boundaries
  where the JavaScript performs `await`.  A JavaScript exception is modelled
  as the `Except.error` case of `Except JsError`, truthiness of optional
  strings with `strTruthy`.
-/

namespace SwiftShip

/-- JavaScript `Error` value: the fields the source reads (`name`, `message`). -/
structure JsError where
  name : String
  message : String
deriving DecidableEq, Repr

/-- Truthiness of a possibly-absent JavaScript string (`undefined`, `null` and
`''` are falsy; every other string is truthy). -/
def strTruthy : Option String → Bool
  | some s => !s.isEmpty
  | none => false

/-! ## Conversation data model (the `messages` array of `converse`) -/

/-- Message role, as the `role` field of the Bedrock `messages` entries. -/
inductive Role
  | user
  | assistant
deriving DecidableEq, Repr

instance : BEq Role := ⟨fun a b => decide (a = b)⟩

/-- Abstract JSON value carried as a tool input (`toolUse.input`).  The loop
treats it opaquely, so a `String` stands for the serialized JSON object. -/
abbrev ToolInput := String

/-- One `toolUse` block of an assistant message. -/
structure ToolUse where
  toolUseId : String
  name : String
  input : ToolInput
deriving DecidableEq, Repr

/-- Result of running one tool call: either the handler value, or the
structured error object built in the inner `catch` of `converse`
(`\x7b error: toolError.message \x7d`, fed back to the model). -/
inductive ToolOutcome
  | ok (v : String)
  | err (msg : String)
deriving DecidableEq, Repr

/-- One content block of a Bedrock message.  The source discriminates blocks
by the presence of a `text`, `toolUse` or `toolResult` key; the JSON
serialization of a tool result is abstracted to the `ToolOutcome` itself. -/
inductive ContentItem
  | text (s : String)
  | toolUse (tu : ToolUse)
  | toolResult (toolUseId : String) (outcome : ToolOutcome)
deriving DecidableEq, Repr

/-- One entry of the `messages` array. -/
structure Message where
  role : Role
  content : List ContentItem
deriving DecidableEq, Repr

/-- The `toolUse` blocks of a content list, in order
(`content.filter(item => 'toolUse' in item && !!item.toolUse)`). -/
def toolUsesOf (content : List ContentItem) : List ToolUse :=
  content.filterMap fun item =>
    match item with
    | .toolUse tu => some tu
    | _ => none

/-- The non-empty `text` fragments of a content list, in order
(`content.filter(item => 'text' in item && !!item.text)`: an empty string is
falsy in JavaScript and is filtered out). -/
def textsOf (content : List ContentItem) : List String :=
  content.filterMap fun item =>
    match item with
    | .text s => if s.isEmpty then none else some s
    | _ => none

/-! ## Tool registry entries (output shape of `convertToBedrockTools`) -/

/-- How a tool handler is invoked: `tool.handler(options.tenantId, toolInput)`
(two arguments) versus `tool.handler(toolInput)` (one argument).  The
constructor records the exact JavaScript call shape. -/
inductive HandlerCall
  | withTenant (tenantId : String) (input : ToolInput)
  | inputOnly (input : ToolInput)
deriving DecidableEq, Repr

/-- The input payload a handler call carries. -/
def callInput : HandlerCall → ToolInput
  | .withTenant _ i => i
  | .inputOnly i => i

/-- The model-facing descriptor of a tool (the `spec` field built by
`convertToBedrockTools`): name, description, and the declared input schema.
The zod schema is modelled as the predicate it decides on inputs. -/
structure ToolSpec where
  name : String
  description : String
  inputSchema : ToolInput → Bool

/-- A registered tool as `converse` receives it: `spec`, `handler`,
`isMultiTenant`.  The handler may throw (`Except.error`). -/
structure Tool where
  spec : ToolSpec
  isMultiTenant : Bool
  handler : HandlerCall → Except JsError String

/-- Replace the declared input schema of a tool, leaving name, description,
multi-tenancy flag and handler unchanged. -/
def withToolSchema (t : Tool) (sch : ToolInput → Bool) : Tool :=
  { t with spec := { t.spec with inputSchema := sch } }

/-! ## The `converse` reasoning loop (src/unnamed/part_006, lines 9-114) -/

/-- Iteration bound of the reasoning loop (`const MAX_ITERATIONS = 10`). -/
def MAX_ITERATIONS : Nat := 10

/-- Caller-supplied `options` object of `converse`.  The source reads
`options?.tenantId` and `options.publishUpdate`; `sessionId`/`actorId` select
the external memory store and are modelled by the explicit `conversation`
parameter of `converseRun`.  A caller may also place a `preserveThinkingTags`
field on the object; the source of `converse` never reads it (line 113 passes
the literal `preserveThinkingTags: false` to `sanitizeResponse`). -/
structure ConverseOptions where
  tenantId : Option String
  publishUpdate : Option (String → Except JsError Unit)
  preserveThinkingTags : Option Bool

/-- The literal status string published before invoking a tool (source line 59;
the source publishes this fixed text, the tool name is not interpolated). -/
def publishNotice : String := "Calling tool \"tool.spec.name\""

/-- The `await options.publishUpdate(...)` step guarded by
`if(options.publishUpdate)`: absent publisher publishes nothing, a present
publisher may throw. -/
def publishAttempt (pub : Option (String → Except JsError Unit)) :
    Except JsError Unit :=
  match pub with
  | none => .ok ()
  | some p => p publishNotice

/-- The call shape chosen at source lines 61-66: two arguments
`(options.tenantId, toolInput)` when `options?.tenantId` is truthy AND the
tool is multi-tenant, one argument `(toolInput)` otherwise.  The tenant id is
taken from the caller options, never from the model output. -/
def mkHandlerCall (tenantId : Option String) (tool : Tool) (input : ToolInput) :
    HandlerCall :=
  if strTruthy tenantId && tool.isMultiTenant then
    .withTenant (tenantId.getD "") input
  else
    .inputOnly input

/-- Record of one requested tool call as processed by the loop body:
the requested name and input, the handler call actually made (`none` when the
handler was never invoked: unknown tool, or the publish step threw first),
and the outcome fed back to the model. -/
structure CallRecord where
  toolName : String
  input : ToolInput
  invoked : Option HandlerCall
  outcome : ToolOutcome
deriving DecidableEq, Repr

/-- Body of the per-tool-call `try/catch` (source lines 51-69): resolve the
tool by name (`tools.find(t => t.spec.name === toolName)`), throw
`Unknown tool: NAME` when absent, publish the status update, then invoke the
handler; any throw in this block is caught and becomes the structured error
outcome. -/
def runToolCall (tenantId : Option String)
    (pub : Option (String → Except JsError Unit))
    (tools : List Tool) (name : String) (input : ToolInput) : CallRecord :=
  match tools.find? (fun t => t.spec.name == name) with
  | none =>
      { toolName := name, input := input, invoked := none,
        outcome := .err ("Unknown tool: " ++ name) }
  | some tool =>
      match publishAttempt pub with
      | .error e =>
          { toolName := name, input := input, invoked := none,
            outcome := .err e.message }
      | .ok _ =>
          let c := mkHandlerCall tenantId tool input
          match tool.handler c with
          | .ok v =>
              { toolName := name, input := input, invoked := some c,
                outcome := .ok v }
          | .error e =>
              { toolName := name, input := input, invoked := some c,
                outcome := .err e.message }

/-- The model-call collaborator: `bedrock.send(new ConverseCommand(...))`.
It receives the system prompt, the full message list and the tool specs; it
may throw (`Except.error`), return a response with no
`output?.message?.content` (`Option.none`), or return the content blocks. -/
abbrev ModelFn :=
  String → List Message → List ToolSpec →
    Except JsError (Option (List ContentItem))

/-- Classification of one loop iteration (source lines 20-90, inside the
outer `try`). -/
inductive IterOutcome
  | noContent
  | toolTurn (assistantMsg resultMsg : Message) (records : List CallRecord)
  | finalText (assistantMsg : Message) (text : String)
  | unexpected (assistantMsg : Message)
deriving Repr

/-- One iteration of the `while` loop of `converse`: call the model on the
accumulated messages; with no content, break (`noContent`); with tool uses,
run every requested tool in order and assemble the single user message whose
content lists the tool results in request order (`toolTurn`); with only text,
join the text fragments (`finalText`); otherwise the generic unexpected-type
break.  Only the model call itself can throw here: every tool-side throw is
absorbed by `runToolCall`. -/
def converseIteration (modelFn : ModelFn) (systemPrompt : String)
    (tenantId : Option String) (pub : Option (String → Except JsError Unit))
    (tools : List Tool) (allMsgs : List Message) :
    Except JsError IterOutcome :=
  match modelFn systemPrompt allMsgs (tools.map (·.spec)) with
  | .error e => .error e
  | .ok none => .ok .noContent
  | .ok (some content) =>
      let assistantMsg : Message := { role := .assistant, content := content }
      match toolUsesOf content with
      | tu :: tus =>
          let pairs := (tu :: tus).map fun u =>
            (u, runToolCall tenantId pub tools u.name u.input)
          let resultMsg : Message :=
            { role := .user,
              content := pairs.map fun p =>
                ContentItem.toolResult p.1.toolUseId p.2.outcome }
          .ok (.toolTurn assistantMsg resultMsg (pairs.map (·.2)))
      | [] =>
          match textsOf content with
          | t :: ts => .ok (.finalText assistantMsg (String.join (t :: ts)))
          | [] => .ok (.unexpected assistantMsg)

/-- Observable outcome of the whole `while` loop: the `finalResponse`
variable, the final `messages` array, and (instrumentation for the theorems)
the number of model calls made and the ordered list of processed tool calls. -/
structure LoopOut where
  finalResponse : String
  messages : List Message
  modelCalls : Nat
  calls : List CallRecord
deriving Repr

/-- The `while (iteration < MAX_ITERATIONS)` loop, fuel-indexed by the number
of remaining iterations.  The outer `catch` (source lines 87-90) converts any
throw of the iteration body into `new Error('Failed to process message')`. -/
def converseLoop (modelFn : ModelFn) (systemPrompt : String)
    (tenantId : Option String) (pub : Option (String → Except JsError Unit))
    (tools : List Tool) (conversation : List Message) :
    Nat → List Message → Except JsError LoopOut
  | 0, msgs =>
      .ok { finalResponse := "", messages := msgs, modelCalls := 0, calls := [] }
  | fuel + 1, msgs =>
      match converseIteration modelFn systemPrompt tenantId pub tools
          (conversation ++ msgs) with
      | .error _ => .error { name := "Error", message := "Failed to process message" }
      | .ok .noContent =>
          .ok { finalResponse := "", messages := msgs, modelCalls := 1, calls := [] }
      | .ok (.finalText am t) =>
          .ok { finalResponse := t, messages := msgs ++ [am], modelCalls := 1,
                calls := [] }
      | .ok (.unexpected am) =>
          .ok { finalResponse := "Received unexpected response type from model",
                messages := msgs ++ [am], modelCalls := 1, calls := [] }
      | .ok (.toolTurn am rm recs) =>
          match converseLoop modelFn systemPrompt tenantId pub tools
              conversation fuel (msgs ++ [am, rm]) with
          | .error e => .error e
          | .ok out =>
              .ok { finalResponse := out.finalResponse,
                    messages := out.messages,
                    modelCalls := out.modelCalls + 1,
                    calls := recs ++ out.calls }

/-- Fallback after the loop (source lines 97-108): when `finalResponse` is
empty and more than one message accumulated, take the MOST RECENT assistant
message and join its non-empty text fragments; adopt that text only when it
is itself non-empty. -/
def lastAssistantText (msgs : List Message) : String :=
  match msgs.reverse.find? (fun m => m.role == Role.assistant) with
  | some m => String.join (textsOf m.content)
  | none => ""

/-- The guarded fallback assignment of lines 97-108. -/
def applyFallback (finalResponse : String) (msgs : List Message) : String :=
  if finalResponse.isEmpty && decide (msgs.length > 1) then
    let tc := lastAssistantText msgs
    if tc.isEmpty then finalResponse else tc
  else finalResponse

/-! ## `sanitizeResponse` (source lines 159-164) -/

/-- Characters of the literal `<thinking>`. -/
def openTagChars : List Char := "<thinking>".toList

/-- Characters of the literal `</thinking>`. -/
def closeTagChars : List Char := "</thinking>".toList

/-- Scan forward for the closing `</thinking>` literal; on success return the
characters after it (the non-greedy `[\s\S]*?` of the regex matches up to the
EARLIEST close tag). -/
def dropThroughClose : List Char → Option (List Char)
  | [] => none
  | c :: rest =>
      if closeTagChars.isPrefixOf (c :: rest) then
        some ((c :: rest).drop closeTagChars.length)
      else dropThroughClose rest

/-- One left-to-right pass of
`text.replace(/<thinking>[\s\S]*?<\/thinking>\s*/g, '')`: at an occurrence of
`<thinking>` that has a later close tag, delete through the close tag and the
whitespace run after it, then continue; otherwise keep the character and
advance.  Fuel-indexed (each step consumes at least one character, so
`length` fuel suffices). -/
def stripThinkingFuel : Nat → List Char → List Char
  | 0, l => l
  | _ + 1, [] => []
  | fuel + 1, c :: rest =>
      if openTagChars.isPrefixOf (c :: rest) then
        match dropThroughClose ((c :: rest).drop openTagChars.length) with
        | some suffix =>
            stripThinkingFuel fuel (suffix.dropWhile Char.isWhitespace)
        | none => c :: stripThinkingFuel fuel rest
      else c :: stripThinkingFuel fuel rest

/-- Remove every `<thinking>...</thinking>` block (and trailing whitespace)
from a string. -/
def stripThinking (s : String) : String :=
  String.mk (stripThinkingFuel s.length s.toList)

/-- JavaScript `String.prototype.trim()`: drop whitespace from both ends
(written over the character list so it evaluates by reduction). -/
def jsTrim (s : String) : String :=
  String.mk
    (((s.toList.dropWhile Char.isWhitespace).reverse.dropWhile
      Char.isWhitespace).reverse)

/-- Options object of `sanitizeResponse`; `options?.preserveThinkingTags`
truthiness is a `Bool` field (an absent option is the `false` default). -/
structure SanitizeOptions where
  preserveThinkingTags : Bool
deriving DecidableEq, Repr

/-- Source lines 159-164: with `preserveThinkingTags` truthy, return
`text.trim()` with the markup intact; otherwise strip the thinking blocks and
trim. -/
def sanitizeResponse (text : String) (options : SanitizeOptions) : String :=
  if options.preserveThinkingTags then jsTrim text
  else jsTrim (stripThinking text)

/-! ## `converse` entry and exit (source lines 9-16 and 93-114) -/

/-- One `part` of the incoming task message (`message.parts[0].text`). -/
structure TextPart where
  text : String
deriving DecidableEq, Repr

/-- The incoming task message. -/
structure IncomingMessage where
  parts : List TextPart
deriving DecidableEq, Repr

/-- The seed user message built at line 14 from `message.parts[0].text`. -/
def seedMessage (p : TextPart) : Message :=
  { role := .user, content := [.text p.text] }

/-- Whole `converse` call, returning both the JavaScript return value and the
loop instrumentation.  `conversation` is the history loaded from the external
memory store when the caller supplies `sessionId`/`actorId` (empty otherwise);
persisting back (`addToConversation`) does not affect the return value and is
omitted.  Reading `message.parts[0].text` of an empty `parts` throws before
the loop (modelled by the `TypeError` case).  After the loop, the fallback of
lines 97-108 runs, then line 113 sanitizes with the hard-coded literal
`preserveThinkingTags: false` and substitutes the generic text for an empty
result (`|| 'No response generated'`). -/
def converseRun (modelFn : ModelFn) (systemPrompt : String)
    (message : IncomingMessage) (tools : List Tool) (opts : ConverseOptions)
    (conversation : List Message) : Except JsError (String × LoopOut) :=
  match message.parts with
  | [] =>
      .error { name := "TypeError",
               message := "Cannot read properties of undefined" }
  | p :: _ =>
      match converseLoop modelFn systemPrompt opts.tenantId opts.publishUpdate
          tools conversation MAX_ITERATIONS [seedMessage p] with
      | .error e => .error e
      | .ok out =>
          let fr := applyFallback out.finalResponse out.messages
          let s := sanitizeResponse fr { preserveThinkingTags := false }
          .ok (if s.isEmpty then "No response generated" else s, out)

/-- The value `converse` returns to its caller. -/
def converse (modelFn : ModelFn) (systemPrompt : String)
    (message : IncomingMessage) (tools : List Tool) (opts : ConverseOptions)
    (conversation : List Message) : Except JsError String :=
  (converseRun modelFn systemPrompt message tools opts conversation).map
    Prod.fst

/-! ## Supervisor triage handler (src/api/functions/agents/triage.mjs) -/

/-- The `status` object of an inbound delivery-exception event. -/
structure ExceptionStatus where
  status : String
  reason : String
deriving DecidableEq, Repr

/-- The `detail` payload of the inbound EventBridge event. -/
structure ExceptionDetail where
  deliveryId : String
  contextId : String
  status : ExceptionStatus
  orderValue : Option Int
deriving DecidableEq, Repr

/-- The inbound event; `detail` is `none` when the event carries no such
field (reading `detail.deliveryId` then throws inside the `try`). -/
structure TriageEvent where
  detail : Option ExceptionDetail
deriving DecidableEq, Repr

/-- Portion of the triage system prompt before the interpolated delivery id
(the long natural-language strategy text of lines 10-27 is opaque prompt data
for every claim; it is abbreviated to a marker). -/
def triagePromptPrefix : String :=
  "You are analyzing a delivery exception to determine the appropriate handling strategy. [strategies...] Invoke PaymentAgent to process refund for delivery "

/-- Portion of the triage system prompt after the interpolated delivery id
(abbreviating the remaining strategy text of lines 29-61, which ends by
instructing the model to notify the customer on unmatched exceptions). -/
def triagePromptSuffix : String :=
  " [more strategies; response format; on unmatched patterns notify the customer via the sendCustomerEmail tool]"

/-- System prompt built at lines 10-61: fixed text with `detail.deliveryId`
interpolated once. -/
def triageSystemPrompt (d : ExceptionDetail) : String :=
  triagePromptPrefix ++ d.deliveryId ++ triagePromptSuffix

/-- User message template of lines 63-68; the order-value line appears only
when `detail.orderValue` is truthy (so a zero value is omitted too). -/
def triageUserMessage (d : ExceptionDetail) : String :=
  "DELIVERY EXCEPTION DETAILS:\n- Delivery ID: " ++ d.deliveryId ++
    "\n- Exception Type: " ++ d.status.status ++
    "\n- Driver Notes: \"" ++ d.status.reason ++ "\"\n" ++
    (match d.orderValue with
     | some v => if v ≠ 0 then "- Order Value: $" ++ toString v else ""
     | none => "") ++ "\n"

/-- What the triage Lambda returns: the 200 response whose body is
`JSON.stringify(\x7b success: true, message: response \x7d)` (fields modelled
directly), or `undefined` — the implicit return of the `catch` block. -/
inductive TriageResult
  | response (statusCode : Nat) (success : Bool) (message : String)
  | jsUndefined
deriving DecidableEq, Repr

/-- The triage Lambda `handler` (lines 4-120).  `sendMessage` abstracts the
whole external `AmazonBedrockOrchestrator` interaction of lines 69-101
(construction, `registerAgents`, `sendMessage`): it receives the system
prompt and the user message and either yields the supervisor loop's final
response text or throws.  Any throw inside the `try` — a missing `detail`
(the destructured access at line 28 throws) or a failure of the orchestrator
round trip — reaches the `catch` of lines 113-119, which only logs and
returns `undefined`: no `ResolutionSummary` and no customer notification is
produced on that path (the handler itself never invokes
`sendCustomerEmailTool`; its direct-tools configuration at lines 81-86 is
commented out in the source). -/
def triageHandler (sendMessage : String → String → Except JsError String)
    (event : TriageEvent) : TriageResult :=
  match event.detail with
  | none => .jsUndefined
  | some d =>
      match sendMessage (triageSystemPrompt d) (triageUserMessage d) with
      | .ok resp => .response 200 true resp
      | .error _ => .jsUndefined

/-! ## Domain tool handlers

Each handler is a two-argument JavaScript async function
`(tenantId, input) => ...` (one-argument `(input) => ...` for the
single-tenant email tool).  The destructuring of the input parameter happens
at the call boundary, BEFORE the `try` of the body: a missing input argument
(as happens when a multi-tenant tool is invoked with the single-argument call
shape) rejects with a `TypeError` that escapes the handler.  Every DynamoDB /
SES round trip is an injected `Except JsError` outcome, so the theorems
quantify over all store behaviours including thrown errors. -/

/-- The rejection produced by destructuring a missing input object. -/
def typeErrorDestructure : JsError :=
  { name := "TypeError",
    message := "Cannot destructure property of undefined" }

/-- Input of `processRefund` (zod schema of process-refund.mjs lines 12-17). -/
structure RefundInput where
  orderId : String
  refundAmount : Int
  reason : String
  scenarioId : Option String
deriving DecidableEq, Repr

/-- Injected store outcome for `processRefund`: the single `PutItemCommand`. -/
structure RefundEnv where
  putRefund : Except JsError Unit

/-- `processRefundTool.handler` (process-refund.mjs lines 18-67): tenant
check, store the refund record, success message; any throw inside the `try`
is caught and becomes the fixed failure string. -/
def processRefundHandler (tenantId : Option String)
    (input : Option RefundInput) (env : RefundEnv) : Except JsError String :=
  match input with
  | none => .error typeErrorDestructure
  | some inp =>
      .ok (if strTruthy tenantId = false then
             "Unauthorized: Missing tenant context"
           else
             match env.putRefund with
             | .ok _ =>
                 "Refund processed successfully: $" ++
                   toString inp.refundAmount ++ " for order " ++ inp.orderId ++
                   " (Reason: " ++ inp.reason ++ ")"
             | .error _ => "Refund processing failed")

/-- Input of `sendCustomerEmail` (send-email.mjs lines 10-14). -/
structure EmailInput where
  subject : String
  messageHtml : String
  toEmail : String
deriving DecidableEq, Repr

/-- Injected outcome of the SES `SendEmailCommand`. -/
structure EmailEnv where
  sendEmail : Except JsError Unit

/-- `sendCustomerEmailTool.handler` (send-email.mjs lines 15-37): single
parameter, one SES call, fixed success / failure strings. -/
def sendCustomerEmailHandler (input : Option EmailInput) (env : EmailEnv) :
    Except JsError String :=
  match input with
  | none => .error typeErrorDestructure
  | some _ =>
      .ok (match env.sendEmail with
           | .ok _ => "Notification sent successfully"
           | .error _ => "Unable to send email due to an error")

/-! ## allocateInventory (allocate-inventory.mjs lines 18-104) -/

/-- Input of `allocateInventory` (schema lines 12-17). -/
structure AllocInput where
  orderId : String
  productId : String
  quantity : Int
  scenarioId : Option String
deriving DecidableEq, Repr

/-- An inventory record as unmarshalled from the table; the source reads the
quantities with a `|| 0` default, so the fields are optional. -/
structure InventoryRecord where
  availableQuantity : Option Int
  allocatedQuantity : Option Int
deriving DecidableEq, Repr

/-- The allocation record written by the handler (the fields the claims
observe; timestamps, GSI keys and ttl are opaque bookkeeping). -/
structure AllocationRecord where
  orderId : String
  productId : String
  quantityAllocated : Int
  status : String
deriving DecidableEq, Repr

/-- A DynamoDB `ConditionExpression`, as used by the tools of this
repository: `attribute_exists(pk) AND attribute_exists(sk)` or
`attribute_not_exists(pk) AND attribute_not_exists(sk)`. -/
inductive DbCondition
  | attrExists
  | attrNotExists
deriving DecidableEq, Repr

/-- The `PutItemCommand` for the allocation record (lines 73-76).  The source
command carries NO `ConditionExpression`, recorded by the `condition` field. -/
structure AllocationPut where
  key : String × String
  record : AllocationRecord
  condition : Option DbCondition
deriving DecidableEq, Repr

/-- The `UpdateItemCommand` for the inventory record (lines 79-88): SET the
two precomputed quantities.  The source command carries NO
`ConditionExpression`, recorded by the `condition` field. -/
structure InventoryUpdate where
  key : String × String
  newAvailable : Int
  newAllocated : Int
  condition : Option DbCondition
deriving DecidableEq, Repr

/-- Insufficient-inventory message (line 48). -/
def allocInsufficientMsg (productId : String) (available requested : Int) :
    String :=
  "Allocation failed: Product " ++ productId ++
    " has insufficient inventory (" ++ toString available ++ " available, " ++
    toString requested ++ " requested)"

/-- Success message (line 90). -/
def allocSuccessMsg (quantity : Int) (productId orderId : String) : String :=
  "Successfully allocated " ++ toString quantity ++ " units of " ++
    productId ++ " for order " ++ orderId

/-- Catch-block message (line 98). -/
def allocCatchMsg (orderId : String) : String :=
  "Something went wrong while allocating inventory for order " ++ orderId

/-- The key of the inventory record read and updated by the handler
(lines 30-31). -/
def allocInventoryKey (tenantId : String) (inp : AllocInput) :
    String × String :=
  (tenantId ++ "#inventory", "product#" ++ inp.productId)

/-- Decision the handler takes from the inventory snapshot it read
(lines 38-70): product missing, insufficient stock, or the pair of writes it
will issue — the unconditional allocation put and the unconditional
read-modify-write inventory update with `newAvailable`/`newAllocated`
computed from the snapshot. -/
inductive AllocDecision
  | reply (msg : String)
  | allocate (put : AllocationPut) (upd : InventoryUpdate) (msg : String)
deriving DecidableEq, Repr

/-- The decision function of `allocateInventory` given the snapshot returned
by its `GetItemCommand` (only reached with a truthy tenant id). -/
def allocDecide (tenantId : String) (inp : AllocInput)
    (snapshot : Option InventoryRecord) : AllocDecision :=
  match snapshot with
  | none =>
      .reply ("Allocation failed: Product " ++ inp.productId ++
        " not found in inventory")
  | some item =>
      let available := item.availableQuantity.getD 0
      if available < inp.quantity then
        .reply (allocInsufficientMsg inp.productId available inp.quantity)
      else
        .allocate
          { key := (tenantId ++ "#allocations",
                    inp.orderId ++ "#" ++ inp.productId),
            record := { orderId := inp.orderId, productId := inp.productId,
                        quantityAllocated := inp.quantity,
                        status := "allocated" },
            condition := none }
          { key := allocInventoryKey tenantId inp,
            newAvailable := available - inp.quantity,
            newAllocated := item.allocatedQuantity.getD 0 + inp.quantity,
            condition := none }
          (allocSuccessMsg inp.quantity inp.productId inp.orderId)

/-- Injected store outcomes for `allocateInventory`: the get, the allocation
put and the inventory update in program order. -/
structure AllocEnv where
  getInventory : Except JsError (Option InventoryRecord)
  putAllocation : Except JsError Unit
  updateInventory : Except JsError Unit

/-- `allocateInventory.handler` over injected store outcomes: tenant check
first (before any store call), then read, decide, and issue the two writes;
every throw inside the `try` is caught into the fixed catch message. -/
def allocateInventoryHandler (tenantId : Option String)
    (input : Option AllocInput) (env : AllocEnv) : Except JsError String :=
  match input with
  | none => .error typeErrorDestructure
  | some inp =>
      .ok (if strTruthy tenantId = false then
             "Unauthorized: Missing tenant context"
           else
             match env.getInventory with
             | .error _ => allocCatchMsg inp.orderId
             | .ok snapshot =>
                 match allocDecide (tenantId.getD "") inp snapshot with
                 | .reply m => m
                 | .allocate _ _ m =>
                     match env.putAllocation with
                     | .error _ => allocCatchMsg inp.orderId
                     | .ok _ =>
                         match env.updateInventory with
                         | .error _ => allocCatchMsg inp.orderId
                         | .ok _ => m)

/-! ## Key-value store semantics for the allocation writes

To reason about concurrent invocations, the DynamoDB table is modelled as an
association-list store and the two write commands are interpreted against it
with DynamoDB conditional-write semantics: a `ConditionExpression` that does
not hold throws `ConditionalCheckFailedException`; an absent condition writes
unconditionally (an `UpdateItem` SET upserts the record). -/

/-- The table (only the record families `allocateInventory` touches). -/
structure Store where
  inventory : List ((String × String) × InventoryRecord)
  allocations : List ((String × String) × AllocationRecord)
deriving DecidableEq, Repr

/-- Replace the value at a key or append the binding. -/
def upsertAssoc {α : Type} (l : List ((String × String) × α))
    (k : String × String) (v : α) : List ((String × String) × α) :=
  match l with
  | [] => [(k, v)]
  | (k₀, v₀) :: rest =>
      if k₀ == k then (k, v) :: rest else (k₀, v₀) :: upsertAssoc rest k v

/-- The error DynamoDB raises when a condition expression fails. -/
def conditionalCheckFailed : JsError :=
  { name := "ConditionalCheckFailedException",
    message := "The conditional request failed" }

/-- Evaluate a condition expression against key presence. -/
def condHolds (cond : Option DbCondition) (present : Bool) : Bool :=
  match cond with
  | none => true
  | some .attrExists => present
  | some .attrNotExists => !present

/-- Interpret the allocation `PutItemCommand` against the store. -/
def applyAllocationPut (st : Store) (p : AllocationPut) :
    Except JsError Store :=
  if condHolds p.condition (st.allocations.lookup p.key).isSome then
    .ok { st with allocations := upsertAssoc st.allocations p.key p.record }
  else .error conditionalCheckFailed

/-- Interpret the inventory `UpdateItemCommand` against the store: SET the
two quantities (upserting when the record is absent, as DynamoDB does). -/
def applyInventoryUpdate (st : Store) (u : InventoryUpdate) :
    Except JsError Store :=
  if condHolds u.condition (st.inventory.lookup u.key).isSome then
    .ok { st with
          inventory := upsertAssoc st.inventory u.key
            { availableQuantity := some u.newAvailable,
              allocatedQuantity := some u.newAllocated } }
  else .error conditionalCheckFailed

/-- The decision an `allocateInventory` invocation takes when its read
executes against store `st`. -/
def allocDecisionOn (st : Store) (tenantId : String) (inp : AllocInput) :
    AllocDecision :=
  allocDecide tenantId inp (st.inventory.lookup (allocInventoryKey tenantId inp))

/-- Apply the writes of a decision to a store (which, under concurrency, may
no longer be the store the snapshot was read from). -/
def allocApplyOn (st : Store) (d : AllocDecision) : Store :=
  match d with
  | .reply _ => st
  | .allocate put upd _ =>
      match applyAllocationPut st put with
      | .error _ => st
      | .ok st₁ =>
          match applyInventoryUpdate st₁ upd with
          | .error _ => st₁
          | .ok st₂ => st₂

/-- The result message of a decision. -/
def allocMsg : AllocDecision → String
  | .reply m => m
  | .allocate _ _ m => m

/-- A whole serial (non-interleaved) `allocateInventory` invocation against a
store: read, decide, write. -/
def allocRunOn (st : Store) (tenantId : Option String) (inp : AllocInput) :
    String × Store :=
  if strTruthy tenantId = false then
    ("Unauthorized: Missing tenant context", st)
  else
    let t := tenantId.getD ""
    let d := allocDecisionOn st t inp
    match d with
    | .reply m => (m, st)
    | .allocate put upd m =>
        match applyAllocationPut st put with
        | .error _ => (allocCatchMsg inp.orderId, st)
        | .ok st₁ =>
            match applyInventoryUpdate st₁ upd with
            | .error _ => (allocCatchMsg inp.orderId, st₁)
            | .ok st₂ => (m, st₂)

/-! ## changeOrderStatus and duplicateOrder (src/unnamed order tools) -/

/-- Input of `changeOrderStatus` (schema lines of change-order-status). -/
structure ChangeStatusInput where
  orderId : String
  newStatus : String
  notes : Option String
  scenarioId : Option String
deriving DecidableEq, Repr

/-- An order record as the order tools read it (only `status` is consulted;
`duplicateOrder` copies the rest opaquely). -/
structure OrderRecord where
  status : String
deriving DecidableEq, Repr

/-- Injected store outcomes for `changeOrderStatus`: the get and the
conditional update (`ConditionExpression:
'attribute_exists(pk) AND attribute_exists(sk)'`). -/
structure ChangeStatusEnv where
  getOrder : Except JsError (Option OrderRecord)
  updateOrder : Except JsError Unit

/-- Catch-block message selector of `changeOrderStatus` (its catch inspects
`err.name` for the conditional-check failure). -/
def changeStatusCatch (orderId : String) (e : JsError) : String :=
  if e.name == "ConditionalCheckFailedException" then
    "Order " ++ orderId ++ " not found or has been modified"
  else "Something went wrong while updating the order status"

/-- `changeOrderStatus.handler`: tenant check, fetch, same-status short
circuit, conditional update, message with optional notes (a notes string is
appended only when truthy). -/
def changeOrderStatusHandler (tenantId : Option String)
    (input : Option ChangeStatusInput) (env : ChangeStatusEnv) :
    Except JsError String :=
  match input with
  | none => .error typeErrorDestructure
  | some inp =>
      .ok (if strTruthy tenantId = false then
             "Unauthorized: Missing tenant context"
           else
             match env.getOrder with
             | .error e => changeStatusCatch inp.orderId e
             | .ok none => "Order " ++ inp.orderId ++ " not found"
             | .ok (some ord) =>
                 if ord.status == inp.newStatus then
                   "Order " ++ inp.orderId ++ " is already in " ++
                     inp.newStatus ++ " status"
                 else
                   match env.updateOrder with
                   | .error e => changeStatusCatch inp.orderId e
                   | .ok _ =>
                       if strTruthy inp.notes then
                         "Order " ++ inp.orderId ++ " status changed from " ++
                           ord.status ++ " to " ++ inp.newStatus ++
                           ". Notes: " ++ inp.notes.getD ""
                       else
                         "Order " ++ inp.orderId ++ " status changed from " ++
                           ord.status ++ " to " ++ inp.newStatus)

/-- A shipping address override (duplicate-order schema). -/
structure Address where
  street : String
  city : String
  state : String
  zipCode : String
  country : String
deriving DecidableEq, Repr

/-- Input of `duplicateOrder`. -/
structure DupInput where
  originalOrderId : String
  customerId : Option String
  shippingAddress : Option Address
  scenarioId : Option String
deriving DecidableEq, Repr

/-- Injected outcomes for `duplicateOrder`: the get, the conditional put
(`ConditionExpression: 'attribute_not_exists(pk) AND
attribute_not_exists(sk)'`), and the generated `randomUUID` order id. -/
structure DupEnv where
  getOrder : Except JsError (Option OrderRecord)
  putOrder : Except JsError Unit
  newOrderId : String

/-- Catch-block message selector of `duplicateOrder`. -/
def dupCatch (e : JsError) : String :=
  if e.name == "ConditionalCheckFailedException" then
    "Failed to create duplicate order - order ID conflict detected"
  else "Something went wrong while duplicating the order"

/-- `duplicateOrder.handler`: tenant check, fetch original, conditional
create of the copy, message with optional override notes. -/
def duplicateOrderHandler (tenantId : Option String)
    (input : Option DupInput) (env : DupEnv) : Except JsError String :=
  match input with
  | none => .error typeErrorDestructure
  | some inp =>
      .ok (if strTruthy tenantId = false then
             "Unauthorized: Missing tenant context"
           else
             match env.getOrder with
             | .error e => dupCatch e
             | .ok none => "Original order " ++ inp.originalOrderId ++
                 " not found"
             | .ok (some _) =>
                 match env.putOrder with
                 | .error e => dupCatch e
                 | .ok _ =>
                     "Order " ++ env.newOrderId ++
                       " created as duplicate of " ++ inp.originalOrderId ++
                       (if strTruthy inp.customerId then
                          " with customer ID " ++ inp.customerId.getD ""
                        else "") ++
                       (match inp.shippingAddress with
                        | some _ => " with updated shipping address"
                        | none => ""))

/-! ## Helper lemmas -/

/-- Assistant-authored text never appears in a message list. -/
def noAssistText (msgs : List Message) : Prop :=
  ∀ mm ∈ msgs, mm.role = Role.assistant → textsOf mm.content = []

theorem runToolCall_toolName (tid : Option String)
    (pub : Option (String → Except JsError Unit)) (tools : List Tool)
    (name : String) (input : ToolInput) :
    (runToolCall tid pub tools name input).toolName = name := by
  unfold runToolCall
  split
  · rfl
  · split
    · rfl
    · dsimp only
      split <;> rfl

theorem runToolCall_input (tid : Option String)
    (pub : Option (String → Except JsError Unit)) (tools : List Tool)
    (name : String) (input : ToolInput) :
    (runToolCall tid pub tools name input).input = input := by
  unfold runToolCall
  split
  · rfl
  · split
    · rfl
    · dsimp only
      split <;> rfl

theorem runToolCall_invoked_spec (tid : Option String)
    (pub : Option (String → Except JsError Unit)) (tools : List Tool)
    (name : String) (input : ToolInput) (c : HandlerCall)
    (h : (runToolCall tid pub tools name input).invoked = some c) :
    ∃ tool, tools.find? (fun t => t.spec.name == name) = some tool ∧
      c = mkHandlerCall tid tool input := by
  unfold runToolCall at h
  split at h
  · simp at h
  · rename_i tool hfind
    split at h
    · simp at h
    · dsimp only at h
      split at h <;> simp at h <;> exact ⟨tool, hfind, h.symm⟩

theorem mkHandlerCall_withTenant (tid : Option String) (tool : Tool)
    (input : ToolInput) (t : String) (i : ToolInput)
    (h : mkHandlerCall tid tool input = HandlerCall.withTenant t i) :
    tid = some t ∧ t ≠ "" ∧ tool.isMultiTenant = true ∧ i = input := by
  unfold mkHandlerCall at h
  split at h
  · rename_i hcond
    rw [Bool.and_eq_true] at hcond
    obtain ⟨ht, hmt⟩ := hcond
    rcases tid with _ | s
    · exact absurd ht (by decide)
    · rw [Option.getD_some] at h
      injection h with h1 h2
      subst h1
      subst h2
      have hs : s ≠ "" := by
        intro hs
        subst hs
        exact absurd ht (by decide)
      exact ⟨rfl, hs, hmt, rfl⟩
  · cases h

theorem mkHandlerCall_inputOnly (tid : Option String) (tool : Tool)
    (input : ToolInput) (i : ToolInput)
    (h : mkHandlerCall tid tool input = HandlerCall.inputOnly i) :
    (strTruthy tid = false ∨ tool.isMultiTenant = false) ∧ i = input := by
  unfold mkHandlerCall at h
  split at h
  · cases h
  · rename_i hcond
    cases h
    cases hst : strTruthy tid with
    | false => exact ⟨Or.inl rfl, rfl⟩
    | true =>
      cases hmt : tool.isMultiTenant with
      | false => exact ⟨Or.inr rfl, rfl⟩
      | true => exact absurd (by rw [hst, hmt]; rfl) hcond

theorem callInput_mkHandlerCall (tid : Option String) (tool : Tool)
    (input : ToolInput) :
    callInput (mkHandlerCall tid tool input) = input := by
  unfold mkHandlerCall
  split <;> rfl

theorem converseIteration_toolTurn_eq (m : ModelFn) (sys : String)
    (tid : Option String) (pub : Option (String → Except JsError Unit))
    (tools : List Tool) (allMsgs : List Message) (content : List ContentItem)
    (tu : ToolUse) (tus : List ToolUse)
    (hm : m sys allMsgs (tools.map (·.spec)) = .ok (some content))
    (htus : toolUsesOf content = tu :: tus) :
    converseIteration m sys tid pub tools allMsgs =
      .ok (.toolTurn { role := .assistant, content := content }
        { role := .user,
          content := (tu :: tus).map fun u =>
            ContentItem.toolResult u.toolUseId
              (runToolCall tid pub tools u.name u.input).outcome }
        ((tu :: tus).map fun u => runToolCall tid pub tools u.name u.input)) := by
  simp only [converseIteration, hm, htus]
  simp [List.map_map, Function.comp]

theorem converseIteration_toolTurn_inv (m : ModelFn) (sys : String)
    (tid : Option String) (pub : Option (String → Except JsError Unit))
    (tools : List Tool) (allMsgs : List Message) (am rm : Message)
    (recs : List CallRecord)
    (h : converseIteration m sys tid pub tools allMsgs =
      .ok (.toolTurn am rm recs)) :
    ∃ content tu tus,
      m sys allMsgs (tools.map (·.spec)) = .ok (some content) ∧
      toolUsesOf content = tu :: tus ∧
      am = { role := .assistant, content := content } ∧
      rm = { role := .user,
             content := (tu :: tus).map fun u =>
               ContentItem.toolResult u.toolUseId
                 (runToolCall tid pub tools u.name u.input).outcome } ∧
      recs = (tu :: tus).map fun u => runToolCall tid pub tools u.name u.input := by
  unfold converseIteration at h
  split at h
  · exact absurd h (by simp)
  · exact absurd h (by simp)
  · rename_i content hv
    dsimp only at h
    split at h
    · rename_i tu tus htus
      refine ⟨content, tu, tus, hv, htus, ?_⟩
      simp only [Except.ok.injEq, IterOutcome.toolTurn.injEq] at h
      obtain ⟨ham, hrm, hrecs⟩ := h
      refine ⟨ham.symm, ?_, ?_⟩
      · rw [← hrm]
        simp [List.map_map, Function.comp]
      · rw [← hrecs]
        simp [List.map_map, Function.comp]
    · split at h <;> simp at h

theorem converseIteration_error_iff (m : ModelFn) (sys : String)
    (tid : Option String) (pub : Option (String → Except JsError Unit))
    (tools : List Tool) (allMsgs : List Message) (e : JsError) :
    converseIteration m sys tid pub tools allMsgs = .error e ↔
      m sys allMsgs (tools.map (·.spec)) = .error e := by
  unfold converseIteration
  cases hv : m sys allMsgs (tools.map (·.spec)) with
  | error e₀ => simp
  | ok v =>
    cases v with
    | none => simp
    | some content =>
      dsimp only
      cases toolUsesOf content with
      | cons tu tus => simp
      | nil =>
        cases textsOf content with
        | cons t ts => simp
        | nil => simp

theorem converseLoop_calls_mem (m : ModelFn) (sys : String)
    (tid : Option String) (pub : Option (String → Except JsError Unit))
    (tools : List Tool) (conv : List Message) :
    ∀ fuel msgs out,
      converseLoop m sys tid pub tools conv fuel msgs = .ok out →
      ∀ rec ∈ out.calls, ∃ name input,
        rec = runToolCall tid pub tools name input := by
  intro fuel
  induction fuel with
  | zero =>
    intro msgs out h rec hrec
    simp only [converseLoop] at h
    cases h
    simp at hrec
  | succ n ih =>
    intro msgs out h rec hrec
    simp only [converseLoop] at h
    split at h
    · exact absurd h (by simp)
    · cases h
      simp at hrec
    · cases h
      simp at hrec
    · cases h
      simp at hrec
    · rename_i am rm recs hiter
      split at h
      · exact absurd h (by simp)
      · rename_i out' hloop
        cases h
        rcases List.mem_append.mp hrec with hl | hr
        · obtain ⟨content, tu, tus, _, _, _, _, hrecs⟩ :=
            converseIteration_toolTurn_inv m sys tid pub tools
              (conv ++ msgs) am rm recs hiter
          subst hrecs
          obtain ⟨u, _, hu⟩ := List.mem_map.mp hl
          exact ⟨u.name, u.input, hu.symm⟩
        · exact ih (msgs ++ [am, rm]) out' hloop rec hr

theorem converseLoop_modelCalls_le (m : ModelFn) (sys : String)
    (tid : Option String) (pub : Option (String → Except JsError Unit))
    (tools : List Tool) (conv : List Message) :
    ∀ fuel msgs out,
      converseLoop m sys tid pub tools conv fuel msgs = .ok out →
      out.modelCalls ≤ fuel := by
  intro fuel
  induction fuel with
  | zero =>
    intro msgs out h
    simp only [converseLoop] at h
    cases h
    exact Nat.le_refl 0
  | succ n ih =>
    intro msgs out h
    simp only [converseLoop] at h
    split at h
    · exact absurd h (by simp)
    · cases h
      exact Nat.succ_le_succ (Nat.zero_le n)
    · cases h
      exact Nat.succ_le_succ (Nat.zero_le n)
    · cases h
      exact Nat.succ_le_succ (Nat.zero_le n)
    · rename_i am rm recs hiter
      split at h
      · exact absurd h (by simp)
      · rename_i out' hloop
        cases h
        exact Nat.succ_le_succ (ih (msgs ++ [am, rm]) out' hloop)

theorem converseLoop_ok_of_model_ok (m : ModelFn) (sys : String)
    (tid : Option String) (pub : Option (String → Except JsError Unit))
    (tools : List Tool) (conv : List Message)
    (hm : ∀ s ms sp, ∃ v, m s ms sp = Except.ok v) :
    ∀ fuel msgs, ∃ out,
      converseLoop m sys tid pub tools conv fuel msgs = .ok out := by
  intro fuel
  induction fuel with
  | zero =>
    intro msgs
    exact ⟨{ finalResponse := "", messages := msgs, modelCalls := 0,
             calls := [] }, by simp only [converseLoop]⟩
  | succ n ih =>
    intro msgs
    obtain ⟨v, hv⟩ := hm sys (conv ++ msgs) (tools.map (·.spec))
    have hiter : ∃ io, converseIteration m sys tid pub tools (conv ++ msgs) =
        .ok io := by
      unfold converseIteration
      rw [hv]
      cases v with
      | none => exact ⟨_, rfl⟩
      | some content =>
        dsimp only
        cases toolUsesOf content with
        | cons tu tus => exact ⟨_, rfl⟩
        | nil =>
          cases textsOf content with
          | cons t ts => exact ⟨_, rfl⟩
          | nil => exact ⟨_, rfl⟩
    obtain ⟨io, hio⟩ := hiter
    cases io with
    | noContent =>
      exact ⟨{ finalResponse := "", messages := msgs, modelCalls := 1,
               calls := [] }, by simp only [converseLoop, hio]⟩
    | finalText am t =>
      exact ⟨{ finalResponse := t, messages := msgs ++ [am], modelCalls := 1,
               calls := [] }, by simp only [converseLoop, hio]⟩
    | unexpected am =>
      exact ⟨{ finalResponse := "Received unexpected response type from model",
               messages := msgs ++ [am], modelCalls := 1, calls := [] },
             by simp only [converseLoop, hio]⟩
    | toolTurn am rm recs =>
      obtain ⟨out', hout'⟩ := ih (msgs ++ [am, rm])
      exact ⟨{ finalResponse := out'.finalResponse, messages := out'.messages,
               modelCalls := out'.modelCalls + 1, calls := recs ++ out'.calls },
             by simp only [converseLoop, hio, hout']⟩

theorem converseLoop_succ_error (m : ModelFn) (sys : String)
    (tid : Option String) (pub : Option (String → Except JsError Unit))
    (tools : List Tool) (conv : List Message) (fuel : Nat)
    (msgs : List Message) (e : JsError)
    (h : converseIteration m sys tid pub tools (conv ++ msgs) = .error e) :
    converseLoop m sys tid pub tools conv (fuel + 1) msgs =
      .error { name := "Error", message := "Failed to process message" } := by
  simp only [converseLoop, h]

theorem lastAssistantText_eq_empty (msgs : List Message)
    (h : noAssistText msgs) : lastAssistantText msgs = "" := by
  unfold lastAssistantText
  cases hf : msgs.reverse.find? (fun mm => mm.role == Role.assistant) with
  | none => rfl
  | some mm =>
    have hmem : mm ∈ msgs := List.mem_reverse.mp (List.mem_of_find?_eq_some hf)
    have hp := List.find?_some hf
    have hrole : mm.role = Role.assistant := of_decide_eq_true hp
    dsimp only
    rw [h mm hmem hrole]
    rfl

theorem applyFallback_empty (msgs : List Message) (h : noAssistText msgs) :
    applyFallback "" msgs = "" := by
  unfold applyFallback
  split
  · simp [lastAssistantText_eq_empty msgs h]
  · rfl

theorem converseLoop_allToolCalls (m : ModelFn) (sys : String)
    (tid : Option String) (pub : Option (String → Except JsError Unit))
    (tools : List Tool) (conv : List Message)
    (hm : ∀ s ms sp, ∃ content, m s ms sp = Except.ok (some content) ∧
      toolUsesOf content ≠ [] ∧ textsOf content = []) :
    ∀ fuel msgs, noAssistText msgs →
      ∃ out, converseLoop m sys tid pub tools conv fuel msgs = .ok out ∧
        out.finalResponse = "" ∧ out.modelCalls = fuel ∧
        noAssistText out.messages := by
  intro fuel
  induction fuel with
  | zero =>
    intro msgs hmsgs
    exact ⟨{ finalResponse := "", messages := msgs, modelCalls := 0,
             calls := [] }, by simp only [converseLoop], rfl, rfl, hmsgs⟩
  | succ n ih =>
    intro msgs hmsgs
    obtain ⟨content, hv, htus, htexts⟩ := hm sys (conv ++ msgs) (tools.map (·.spec))
    obtain ⟨tu, tus, htus'⟩ : ∃ tu tus, toolUsesOf content = tu :: tus := by
      cases hc : toolUsesOf content with
      | nil => exact absurd hc htus
      | cons a l => exact ⟨a, l, rfl⟩
    have hiter := converseIteration_toolTurn_eq m sys tid pub tools
      (conv ++ msgs) content tu tus hv htus'
    have hstep : noAssistText (msgs ++
        [{ role := Role.assistant, content := content },
         { role := Role.user,
           content := (tu :: tus).map fun u =>
             ContentItem.toolResult u.toolUseId
               (runToolCall tid pub tools u.name u.input).outcome }]) := by
      intro mm hmm hrole
      rcases List.mem_append.mp hmm with h₁ | h₂
      · exact hmsgs mm h₁ hrole
      · rcases List.mem_cons.mp h₂ with h₂ | h₂
        · subst h₂
          exact htexts
        · rcases List.mem_cons.mp h₂ with h₂ | h₂
          · subst h₂
            exact Role.noConfusion hrole
          · cases h₂
    obtain ⟨out', hout', hfr, hmc, hmsgs'⟩ := ih _ hstep
    refine ⟨{ finalResponse := out'.finalResponse, messages := out'.messages,
              modelCalls := out'.modelCalls + 1,
              calls := ((tu :: tus).map fun u =>
                runToolCall tid pub tools u.name u.input) ++ out'.calls },
            by simp only [converseLoop, hiter, hout'], hfr, ?_, hmsgs'⟩
    rw [hmc]

theorem converseRun_ok_inv (m : ModelFn) (sys : String)
    (msg : IncomingMessage) (tools : List Tool) (opts : ConverseOptions)
    (conv : List Message) (r : String) (out : LoopOut)
    (h : converseRun m sys msg tools opts conv = .ok (r, out)) :
    ∃ p ps, msg.parts = p :: ps ∧
      converseLoop m sys opts.tenantId opts.publishUpdate tools conv
        MAX_ITERATIONS [seedMessage p] = .ok out ∧
      r = (if (sanitizeResponse (applyFallback out.finalResponse out.messages)
              { preserveThinkingTags := false }).isEmpty then
            "No response generated"
          else sanitizeResponse (applyFallback out.finalResponse out.messages)
            { preserveThinkingTags := false }) := by
  cases hp : msg.parts with
  | nil =>
    simp only [converseRun, hp] at h
    exact absurd h (by simp)
  | cons p ps =>
    simp only [converseRun, hp] at h
    refine ⟨p, ps, rfl, ?_⟩
    split at h
    · exact absurd h (by simp)
    · rename_i out₀ hloop
      simp only [Except.ok.injEq, Prod.mk.injEq] at h
      obtain ⟨hr, ho⟩ := h
      subst ho
      exact ⟨hloop, hr.symm⟩

theorem find?_map_withToolSchema (tools : List Tool) (sch : ToolInput → Bool)
    (name : String) :
    (tools.map fun t => withToolSchema t sch).find?
        (fun t => t.spec.name == name) =
      (tools.find? (fun t => t.spec.name == name)).map
        (fun t => withToolSchema t sch) := by
  induction tools with
  | nil => rfl
  | cons t ts ih =>
    simp only [List.map_cons, List.find?]
    have hsame : ((withToolSchema t sch).spec.name == name) =
        (t.spec.name == name) := rfl
    rw [hsame]
    cases h : (t.spec.name == name) with
    | true => rfl
    | false => exact ih

/-! ## Claim C2 -/

/-- Multi-tenant tool used for the C2 counterexample (spec shape of
`processRefundTool` after `convertToBedrockTools`: `isMultiTenant: true`). -/
def c2Tool : Tool :=
  { spec := { name := "T", description := "demo tool",
              inputSchema := fun _ => true },
    isMultiTenant := true,
    handler := fun _ => .ok "handled" }

/-- Scripted model for the C2 counterexample: one tool call, then text. -/
def c2Model : ModelFn := fun _ msgs _ =>
  if msgs.length == 1 then
    .ok (some [.toolUse { toolUseId := "u1", name := "T", input := "i1" }])
  else .ok (some [.text "done"])

/-- Caller context WITHOUT a tenant id. -/
def c2Opts : ConverseOptions :=
  { tenantId := none, publishUpdate := none, preserveThinkingTags := none }

/-- Incoming task message used by the concrete runs. -/
def taskMsg : IncomingMessage := { parts := [{ text := "hello" }] }

/-- C2 counterexample: in a caller context with no `tenantId`, the model
requests the multi-tenant tool `T` and the loop invokes its handler with the
ONE-argument call shape `(input)` — not `(tenantId, input)` as the claim
states for every caller context.  (The handler, which expects the tenant id
first, thus receives the input in the tenant position.) -/
theorem C2_counterexample :
    (converseRun c2Model "sys" taskMsg [c2Tool] c2Opts []).map
        (fun q => q.2.calls) =
      .ok [{ toolName := "T", input := "i1",
             invoked := some (HandlerCall.inputOnly "i1"),
             outcome := ToolOutcome.ok "handled" }] := rfl

/-- C2 (amended): in the reasoning loop, every handler invocation uses the
two-argument shape `(tenantId, input)` exactly when the caller context holds
a truthy `tenantId` AND the resolved tool is multi-tenant — and then the
tenant id is precisely the caller-supplied one (never model output) and the
input is the raw model-requested input; otherwise the tool is invoked with
`(input)` alone, including for a multi-tenant tool in a tenantless context. -/
theorem C2_amended : ∀ (m : ModelFn) (sys : String) (msg : IncomingMessage)
    (tools : List Tool) (opts : ConverseOptions) (conv : List Message)
    (r : String) (out : LoopOut) (rec : CallRecord) (c : HandlerCall),
    converseRun m sys msg tools opts conv = .ok (r, out) →
    rec ∈ out.calls → rec.invoked = some c →
    ∃ tool, tools.find? (fun t => t.spec.name == rec.toolName) = some tool ∧
      (∀ t i, c = HandlerCall.withTenant t i →
        opts.tenantId = some t ∧ t ≠ "" ∧ tool.isMultiTenant = true ∧
          i = rec.input) ∧
      (∀ i, c = HandlerCall.inputOnly i →
        (strTruthy opts.tenantId = false ∨ tool.isMultiTenant = false) ∧
          i = rec.input) := by
  intro m sys msg tools opts conv r out rec c hrun hmem hinv
  obtain ⟨p, ps, hparts, hloop, hr⟩ :=
    converseRun_ok_inv m sys msg tools opts conv r out hrun
  obtain ⟨name, input, hrec⟩ :=
    converseLoop_calls_mem m sys opts.tenantId opts.publishUpdate tools conv
      MAX_ITERATIONS [seedMessage p] out hloop rec hmem
  subst hrec
  rw [runToolCall_toolName]
  rw [runToolCall_input]
  obtain ⟨tool, hfind, hc⟩ :=
    runToolCall_invoked_spec opts.tenantId opts.publishUpdate tools name input
      c hinv
  subst hc
  refine ⟨tool, hfind, ?_, ?_⟩
  · intro t i hti
    obtain ⟨h1, h2, h3, h4⟩ :=
      mkHandlerCall_withTenant opts.tenantId tool input t i hti
    exact ⟨h1, h2, h3, h4⟩
  · intro i hio
    exact mkHandlerCall_inputOnly opts.tenantId tool input i hio

/-- Multi-tenant tool for the C2 witness run. -/
def c2wTool : Tool :=
  { spec := { name := "T", description := "demo tool",
              inputSchema := fun _ => true },
    isMultiTenant := true,
    handler := fun _ => .ok "handled" }

/-- Caller context WITH tenant id `t1`. -/
def c2wOpts : ConverseOptions :=
  { tenantId := some "t1", publishUpdate := none,
    preserveThinkingTags := none }

/-- The call record produced in the C2 witness run. -/
def c2wRec : CallRecord :=
  { toolName := "T", input := "i1",
    invoked := some (HandlerCall.withTenant "t1" "i1"),
    outcome := ToolOutcome.ok "handled" }

/-- The loop instrumentation of the C2 witness run. -/
def c2wOut : LoopOut :=
  { finalResponse := "done",
    messages :=
      [seedMessage { text := "hello" },
       { role := .assistant,
         content := [.toolUse { toolUseId := "u1", name := "T",
                                input := "i1" }] },
       { role := .user, content := [.toolResult "u1" (.ok "handled")] },
       { role := .assistant, content := [.text "done"] }],
    modelCalls := 2,
    calls := [c2wRec] }

/-- Witness for `C2_amended`: the theorem applied to a concrete run with a
tenant-scoped context yields the tenant actually supplied by the caller. -/
theorem C2_amended_witness :
    c2wRec.invoked = some (HandlerCall.withTenant "t1" "i1") ∧
    c2wOpts.tenantId = some "t1" := by
  have h := C2_amended c2Model "sys" taskMsg [c2wTool] c2wOpts [] "done"
    c2wOut c2wRec (HandlerCall.withTenant "t1" "i1") rfl (by simp [c2wOut])
    rfl
  obtain ⟨tool, _, hw, _⟩ := h
  exact ⟨rfl, (hw "t1" "i1" rfl).1⟩

/-! ## Claim C3 -/

/-- Whether any assistant message of a history carries a non-empty text
fragment. -/
def anyAssistantText (msgs : List Message) : Bool :=
  msgs.any fun mm => mm.role == Role.assistant && !(textsOf mm.content).isEmpty

/-- Scripted model for the C3 counterexample: the FIRST response carries an
assistant text fragment `t0` alongside a tool call (so the turn is processed
as a tool turn and the text stays in history); every later response is a pure
tool call. -/
def c3Model : ModelFn := fun _ msgs _ =>
  .ok (some (if msgs.length == 1 then
    [.text "t0", .toolUse { toolUseId := "u1", name := "T", input := "i" }]
  else
    [.toolUse { toolUseId := "u2", name := "T", input := "i" }]))

/-- C3 counterexample: the iteration bound is exhausted while an
assistant-authored text fragment (`t0`) exists in the accumulated history,
yet the result is the generic `No response generated` — the fallback reads
only the MOST RECENT assistant message (which has no text), not the last text
fragment found anywhere in history as the claim states. -/
theorem C3_counterexample :
    (converseRun c3Model "sys" taskMsg [] c2Opts []).map
        (fun q => (q.1, anyAssistantText q.2.messages)) =
      .ok ("No response generated", true) := rfl

/-- C3 (amended): the loop makes at most `MAX_ITERATIONS` (10) model calls;
and for a model that always requests tool calls and never returns assistant
text, the loop exhausts exactly `MAX_ITERATIONS` model calls and returns the
non-throwing generic fallback `No response generated` (the post-loop fallback
consults only the text of the most recent assistant message, which such a
model never provides). -/
theorem C3_amended :
    (∀ (m : ModelFn) (sys : String) (msg : IncomingMessage)
        (tools : List Tool) (opts : ConverseOptions) (conv : List Message)
        (r : String) (out : LoopOut),
      converseRun m sys msg tools opts conv = .ok (r, out) →
      out.modelCalls ≤ MAX_ITERATIONS) ∧
    (∀ (m : ModelFn) (sys : String) (msg : IncomingMessage)
        (tools : List Tool) (opts : ConverseOptions) (conv : List Message),
      msg.parts ≠ [] →
      (∀ s ms sp, ∃ content, m s ms sp = Except.ok (some content) ∧
        toolUsesOf content ≠ [] ∧ textsOf content = []) →
      ∃ out, converseRun m sys msg tools opts conv =
        .ok ("No response generated", out) ∧
        out.modelCalls = MAX_ITERATIONS) := by
  constructor
  · intro m sys msg tools opts conv r out h
    obtain ⟨p, ps, hparts, hloop, hr⟩ :=
      converseRun_ok_inv m sys msg tools opts conv r out h
    exact converseLoop_modelCalls_le m sys opts.tenantId opts.publishUpdate
      tools conv MAX_ITERATIONS [seedMessage p] out hloop
  · intro m sys msg tools opts conv hne hm
    obtain ⟨p, ps, hparts⟩ : ∃ p ps, msg.parts = p :: ps := by
      cases hp : msg.parts with
      | nil => exact absurd hp hne
      | cons a l => exact ⟨a, l, rfl⟩
    have hseed : noAssistText [seedMessage p] := by
      intro mm hmm hrole
      rcases List.mem_cons.mp hmm with h₁ | h₁
      · subst h₁
        exact Role.noConfusion hrole
      · cases h₁
    obtain ⟨out, hloop, hfr, hmc, hmsgs⟩ :=
      converseLoop_allToolCalls m sys opts.tenantId opts.publishUpdate tools
        conv hm MAX_ITERATIONS [seedMessage p] hseed
    refine ⟨out, ?_, hmc⟩
    have hfall : applyFallback out.finalResponse out.messages = "" := by
      rw [hfr]
      exact applyFallback_empty out.messages hmsgs
    simp only [converseRun, hparts, hloop, hfall]
    rfl

/-- Scripted model for the C3 witness: every response is a single tool call
for a tool that is not registered (the error results are fed back and the
loop keeps going until the bound). -/
def c3wModel : ModelFn := fun _ _ _ =>
  .ok (some [.toolUse { toolUseId := "u", name := "T", input := "i" }])

/-- Witness for `C3_amended`: the concrete always-tool-calling model yields
the generic fallback after exactly 10 model calls, and the bound holds for
this run. -/
theorem C3_amended_witness :
    converse c3wModel "sys" taskMsg [] c2Opts [] =
      .ok "No response generated" := by
  obtain ⟨out, hrun, hmc⟩ := C3_amended.2 c3wModel "sys" taskMsg [] c2Opts []
    (by simp [taskMsg])
    (fun s ms sp => ⟨[.toolUse { toolUseId := "u", name := "T", input := "i" }],
      rfl, by simp [toolUsesOf], by simp [textsOf]⟩)
  have hle := C3_amended.1 c3wModel "sys" taskMsg [] c2Opts []
    "No response generated" out hrun
  simp only [converse, hrun, Except.map]

/-! ## Claim C4 -/

/-- Scripted model whose transport always fails. -/
def c4FailModel : ModelFn := fun _ _ _ =>
  .error { name := "ServiceUnavailable", message := "bedrock down" }

/-- C4: tool-side failures are absorbed, transport failures are fatal:
(1) a model-requested tool name absent from the registry yields the
structured `Unknown tool` error result, with no handler invoked;
(2) a handler that throws yields the structured error result carrying the
thrown message, and the loop processes it as an ordinary tool result;
(3) when the model transport never fails, the whole call returns a value —
no tool behaviour can abort it;
(4) when the model transport fails, the call aborts with the generic
`Failed to process message` error. -/
theorem C4_theorem :
    (∀ (tid : Option String) (pub : Option (String → Except JsError Unit))
        (tools : List Tool) (name : String) (input : ToolInput),
      tools.find? (fun t => t.spec.name == name) = none →
      runToolCall tid pub tools name input =
        { toolName := name, input := input, invoked := none,
          outcome := .err ("Unknown tool: " ++ name) }) ∧
    (∀ (tid : Option String) (pub : Option (String → Except JsError Unit))
        (tools : List Tool) (name : String) (input : ToolInput)
        (tool : Tool) (e : JsError),
      tools.find? (fun t => t.spec.name == name) = some tool →
      publishAttempt pub = .ok () →
      tool.handler (mkHandlerCall tid tool input) = .error e →
      runToolCall tid pub tools name input =
        { toolName := name, input := input,
          invoked := some (mkHandlerCall tid tool input),
          outcome := .err e.message }) ∧
    (∀ (m : ModelFn) (sys : String) (msg : IncomingMessage)
        (tools : List Tool) (opts : ConverseOptions) (conv : List Message),
      msg.parts ≠ [] →
      (∀ s ms sp, ∃ v, m s ms sp = Except.ok v) →
      ∃ res, converseRun m sys msg tools opts conv = .ok res) ∧
    (∀ (m : ModelFn) (sys : String) (p : TextPart) (ps : List TextPart)
        (tools : List Tool) (opts : ConverseOptions) (conv : List Message)
        (e : JsError),
      m sys (conv ++ [seedMessage p]) (tools.map (·.spec)) = .error e →
      converseRun m sys { parts := p :: ps } tools opts conv =
        .error { name := "Error", message := "Failed to process message" }) := by
  refine ⟨?_, ?_, ?_, ?_⟩
  · intro tid pub tools name input h
    simp only [runToolCall, h]
  · intro tid pub tools name input tool e hfind hpub hh
    simp only [runToolCall, hfind, hpub]
    rw [hh]
  · intro m sys msg tools opts conv hne hm
    obtain ⟨p, ps, hparts⟩ : ∃ p ps, msg.parts = p :: ps := by
      cases hp : msg.parts with
      | nil => exact absurd hp hne
      | cons a l => exact ⟨a, l, rfl⟩
    obtain ⟨out, hloop⟩ := converseLoop_ok_of_model_ok m sys opts.tenantId
      opts.publishUpdate tools conv hm MAX_ITERATIONS [seedMessage p]
    refine ⟨((if (sanitizeResponse
        (applyFallback out.finalResponse out.messages)
        { preserveThinkingTags := false }).isEmpty then
          "No response generated"
        else sanitizeResponse (applyFallback out.finalResponse out.messages)
          { preserveThinkingTags := false }), out), ?_⟩
    simp only [converseRun, hparts, hloop]
  · intro m sys p ps tools opts conv e hme
    have hiter := (converseIteration_error_iff m sys opts.tenantId
      opts.publishUpdate tools (conv ++ [seedMessage p]) e).mpr hme
    have hl := converseLoop_succ_error m sys opts.tenantId opts.publishUpdate
      tools conv 9 [seedMessage p] e hiter
    simp only [converseRun]
    rw [show MAX_ITERATIONS = 9 + 1 from rfl, hl]

/-- Witness for `C4_theorem`: an unknown-tool request becomes a structured
error record, and a transport failure aborts the whole call with the generic
error. -/
theorem C4_theorem_witness :
    runToolCall none none [] "missing" "i" =
      { toolName := "missing", input := "i", invoked := none,
        outcome := .err "Unknown tool: missing" } ∧
    converseRun c4FailModel "sys" taskMsg [] c2Opts [] =
      .error { name := "Error", message := "Failed to process message" } := by
  refine ⟨C4_theorem.1 none none [] "missing" "i" rfl, ?_⟩
  exact C4_theorem.2.2.2 c4FailModel "sys" { text := "hello" } [] [] c2Opts []
    { name := "ServiceUnavailable", message := "bedrock down" } rfl

/-! ## Claim C5 -/

/-- Tool whose declared input schema rejects EVERY input, for the C5
counterexample. -/
def c5Tool : Tool :=
  { spec := { name := "T", description := "demo tool",
              inputSchema := fun _ => false },
    isMultiTenant := false,
    handler := fun _ => .ok "ran" }

/-- Scripted model for the C5 counterexample: requests tool `T` with an
input its schema rejects, then finishes with text. -/
def c5Model : ModelFn := fun _ msgs _ =>
  if msgs.length == 1 then
    .ok (some [.toolUse { toolUseId := "u1", name := "T",
                          input := "badInput" }])
  else .ok (some [.text "done"])

/-- C5 counterexample: the tool's declared schema rejects the model-supplied
input, yet the reasoning loop invokes the handler on that raw input and feeds
its ordinary result back — no validation happens before invocation and no
validation error is reported. -/
theorem C5_counterexample :
    c5Tool.spec.inputSchema "badInput" = false ∧
    (converseRun c5Model "sys" taskMsg [c5Tool] c2Opts []).map
        (fun q => q.2.calls) =
      .ok [{ toolName := "T", input := "badInput",
             invoked := some (HandlerCall.inputOnly "badInput"),
             outcome := ToolOutcome.ok "ran" }] := ⟨rfl, rfl⟩

/-- C5 (amended): the reasoning loop performs NO schema validation before
invoking a tool handler: the behaviour of a tool call is invariant under
arbitrary replacement of every declared input schema, and whenever a handler
is invoked it receives exactly the raw model-requested input.  (The declared
schema is only forwarded to the model inside the tool configuration; errors
thrown by the handler itself are caught and fed back, per C4.) -/
theorem C5_amended :
    (∀ (tid : Option String) (pub : Option (String → Except JsError Unit))
        (tools : List Tool) (sch : ToolInput → Bool) (name : String)
        (input : ToolInput),
      runToolCall tid pub (tools.map fun t => withToolSchema t sch) name
        input = runToolCall tid pub tools name input) ∧
    (∀ (tid : Option String) (pub : Option (String → Except JsError Unit))
        (tools : List Tool) (name : String) (input : ToolInput)
        (c : HandlerCall),
      (runToolCall tid pub tools name input).invoked = some c →
      callInput c = input) := by
  constructor
  · intro tid pub tools sch name input
    unfold runToolCall
    rw [find?_map_withToolSchema]
    cases tools.find? (fun t => t.spec.name == name) with
    | none => rfl
    | some tool => rfl
  · intro tid pub tools name input c h
    obtain ⟨tool, _, hc⟩ :=
      runToolCall_invoked_spec tid pub tools name input c h
    subst hc
    exact callInput_mkHandlerCall tid tool input

/-- Witness for `C5_amended`: replacing the reject-all schema of the concrete
tool with an accept-all schema leaves the tool call unchanged, and the
handler received the raw input. -/
theorem C5_amended_witness :
    runToolCall none none ([c5Tool].map fun t =>
      withToolSchema t (fun _ => true)) "T" "badInput" =
      runToolCall none none [c5Tool] "T" "badInput" ∧
    callInput (HandlerCall.inputOnly "badInput") = "badInput" := by
  refine ⟨C5_amended.1 none none [c5Tool] (fun _ => true) "T" "badInput", ?_⟩
  exact C5_amended.2 none none [c5Tool] "T" "badInput"
    (HandlerCall.inputOnly "badInput") rfl

/-! ## Claim C7 -/

/-- Multi-tenant tool for the C7 runs. -/
def c7Tool : Tool :=
  { spec := { name := "T", description := "demo tool",
              inputSchema := fun _ => true },
    isMultiTenant := true,
    handler := fun _ => .ok "allocated" }

/-- Scripted model for the C7 runs: one tool call, then text. -/
def c7Model : ModelFn := fun _ msgs _ =>
  if msgs.length == 1 then
    .ok (some [.toolUse { toolUseId := "u1", name := "T", input := "i1" }])
  else .ok (some [.text "done"])

/-- Caller context whose `publishUpdate` throws (the event channel is
unavailable). -/
def c7OptsFail : ConverseOptions :=
  { tenantId := some "t1",
    publishUpdate := some (fun _ =>
      .error { name := "Error", message := "channel unavailable" }),
    preserveThinkingTags := none }

/-- Caller context whose `publishUpdate` succeeds. -/
def c7OptsOk : ConverseOptions :=
  { tenantId := some "t1", publishUpdate := some (fun _ => .ok ()),
    preserveThinkingTags := none }

/-- C7 counterexample: `converse` awaits `options.publishUpdate` INSIDE the
same try block as the tool handler, before invoking it — when publishing
throws, the handler is never invoked (`invoked = none`) and the tool call
yields an error result instead of the tool's outcome, so the orchestration
outcome differs between a failing and a succeeding publisher: publishing is
not fire-and-forget with respect to the tool invocation. -/
theorem C7_counterexample :
    (converseRun c7Model "sys" taskMsg [c7Tool] c7OptsFail []).map
        (fun q => q.2.calls) =
      .ok [{ toolName := "T", input := "i1", invoked := none,
             outcome := ToolOutcome.err "channel unavailable" }] ∧
    (converseRun c7Model "sys" taskMsg [c7Tool] c7OptsOk []).map
        (fun q => q.2.calls) =
      .ok [{ toolName := "T", input := "i1",
             invoked := some (HandlerCall.withTenant "t1" "i1"),
             outcome := ToolOutcome.ok "allocated" }] := ⟨rfl, rfl⟩

/-- C7 (amended): a publishing failure does not abort the reasoning loop —
it is caught by the per-tool-call catch and converted into a structured
error tool result fed back to the model (only a model-call failure makes an
iteration fail) — but it does fail that tool invocation: the handler is not
executed when `publishUpdate` throws. -/
theorem C7_amended :
    (∀ (tid : Option String) (pubf : String → Except JsError Unit)
        (tools : List Tool) (name : String) (input : ToolInput)
        (tool : Tool) (e : JsError),
      tools.find? (fun t => t.spec.name == name) = some tool →
      pubf publishNotice = .error e →
      runToolCall tid (some pubf) tools name input =
        { toolName := name, input := input, invoked := none,
          outcome := .err e.message }) ∧
    (∀ (m : ModelFn) (sys : String) (tid : Option String)
        (pub : Option (String → Except JsError Unit)) (tools : List Tool)
        (allMsgs : List Message) (e : JsError),
      converseIteration m sys tid pub tools allMsgs = .error e →
      m sys allMsgs (tools.map (·.spec)) = .error e) := by
  constructor
  · intro tid pubf tools name input tool e hfind hpub
    simp only [runToolCall, hfind, publishAttempt, hpub]
  · intro m sys tid pub tools allMsgs e h
    exact (converseIteration_error_iff m sys tid pub tools allMsgs e).mp h

/-- Witness for `C7_amended`: the concrete failing publisher produces the
error record with no handler invocation. -/
theorem C7_amended_witness :
    runToolCall (some "t1")
      (some (fun _ =>
        .error { name := "Error", message := "channel unavailable" }))
      [c7Tool] "T" "i1" =
      { toolName := "T", input := "i1", invoked := none,
        outcome := .err "channel unavailable" } := by
  exact C7_amended.1 (some "t1")
    (fun _ => .error { name := "Error", message := "channel unavailable" })
    [c7Tool] "T" "i1" c7Tool
    { name := "Error", message := "channel unavailable" } rfl rfl

/-! ## Claim C8 -/

/-- C8: when a model turn requests several tool calls, the loop executes
every one of them in request order, assembles all their results into the
single next user message — one `toolResult` block per request, same order,
matching `toolUseId`s — and only then (with one fuel consumed) proceeds to
the next model call on the history extended by exactly the assistant message
and that result message. -/
theorem C8_theorem :
    ∀ (m : ModelFn) (sys : String) (tid : Option String)
      (pub : Option (String → Except JsError Unit)) (tools : List Tool)
      (conv msgs : List Message) (content : List ContentItem) (tu : ToolUse)
      (tus : List ToolUse) (fuel : Nat),
      m sys (conv ++ msgs) (tools.map (·.spec)) = .ok (some content) →
      toolUsesOf content = tu :: tus →
      converseLoop m sys tid pub tools conv (fuel + 1) msgs =
        (converseLoop m sys tid pub tools conv fuel
          (msgs ++ [{ role := .assistant, content := content },
                    { role := .user,
                      content := (tu :: tus).map fun u =>
                        ContentItem.toolResult u.toolUseId
                          (runToolCall tid pub tools u.name u.input).outcome }])).map
          (fun out =>
            { finalResponse := out.finalResponse,
              messages := out.messages,
              modelCalls := out.modelCalls + 1,
              calls := ((tu :: tus).map fun u =>
                runToolCall tid pub tools u.name u.input) ++ out.calls }) := by
  intro m sys tid pub tools conv msgs content tu tus fuel hm htus
  have hiter := converseIteration_toolTurn_eq m sys tid pub tools
    (conv ++ msgs) content tu tus hm htus
  simp only [converseLoop, hiter]
  cases converseLoop m sys tid pub tools conv fuel
      (msgs ++ [{ role := .assistant, content := content },
                { role := .user,
                  content := (tu :: tus).map fun u =>
                    ContentItem.toolResult u.toolUseId
                      (runToolCall tid pub tools u.name u.input).outcome }]) with
  | error e => rfl
  | ok out => rfl

/-- Tools for the C8 witness: two distinct registered tools. -/
def c8ToolA : Tool :=
  { spec := { name := "A", description := "first tool",
              inputSchema := fun _ => true },
    isMultiTenant := false,
    handler := fun _ => .ok "resultA" }

/-- Second tool for the C8 witness. -/
def c8ToolB : Tool :=
  { spec := { name := "B", description := "second tool",
              inputSchema := fun _ => true },
    isMultiTenant := false,
    handler := fun _ => .ok "resultB" }

/-- Scripted model for the C8 witness: issues TWO tool calls in one turn. -/
def c8Model : ModelFn := fun _ _ _ =>
  .ok (some [.toolUse { toolUseId := "uA", name := "A", input := "iA" },
             .toolUse { toolUseId := "uB", name := "B", input := "iB" }])

/-- Witness for `C8_theorem`: with the two-tool-call turn, both tools execute
and both results appear, in request order with matching ids, in the one user
message appended before the next model call. -/
theorem C8_theorem_witness :
    converseLoop c8Model "sys" none none [c8ToolA, c8ToolB] [] 1
        [seedMessage { text := "hello" }] =
      .ok { finalResponse := "",
            messages :=
              [seedMessage { text := "hello" },
               { role := .assistant,
                 content :=
                   [.toolUse { toolUseId := "uA", name := "A",
                               input := "iA" },
                    .toolUse { toolUseId := "uB", name := "B",
                               input := "iB" }] },
               { role := .user,
                 content := [.toolResult "uA" (.ok "resultA"),
                             .toolResult "uB" (.ok "resultB")] }],
            modelCalls := 1,
            calls :=
              [{ toolName := "A", input := "iA",
                 invoked := some (HandlerCall.inputOnly "iA"),
                 outcome := .ok "resultA" },
               { toolName := "B", input := "iB",
                 invoked := some (HandlerCall.inputOnly "iB"),
                 outcome := .ok "resultB" }] } := by
  have h := C8_theorem c8Model "sys" none none [c8ToolA, c8ToolB] []
    [seedMessage { text := "hello" }]
    [.toolUse { toolUseId := "uA", name := "A", input := "iA" },
     .toolUse { toolUseId := "uB", name := "B", input := "iB" }]
    { toolUseId := "uA", name := "A", input := "iA" }
    [{ toolUseId := "uB", name := "B", input := "iB" }] 0 rfl rfl
  rw [h]
  rfl

/-! ## Claim C9 -/

/-- Scripted model for the C9 counterexample: the final text carries thinking
markup. -/
def c9Model : ModelFn := fun _ _ _ =>
  .ok (some [.text "<thinking>x</thinking>Hello"])

/-- Caller context that explicitly configures `preserveThinkingTags: true`. -/
def c9Opts : ConverseOptions :=
  { tenantId := none, publishUpdate := none,
    preserveThinkingTags := some true }

/-- C9 counterexample: the caller explicitly configured
`preserveThinkingTags` to preserve the markup, yet `converse` strips it
anyway — line 113 passes the hard-coded literal
`preserveThinkingTags: false` to `sanitizeResponse` and never reads the
caller option (which, invoked directly with the option set, would have left
the markup intact, as the third conjunct shows). -/
theorem C9_counterexample :
    c9Opts.preserveThinkingTags = some true ∧
    converse c9Model "sys" taskMsg [] c9Opts [] = .ok "Hello" ∧
    sanitizeResponse "<thinking>x</thinking>Hello"
        { preserveThinkingTags := true } =
      "<thinking>x</thinking>Hello" := ⟨rfl, rfl, rfl⟩

/-- C9 (amended): `converse` always strips thinking markup from the final
text: its result is invariant under the caller's `preserveThinkingTags`
setting (the stripping flag is hard-coded to `false` at the return site);
`sanitizeResponse` itself honors the option and returns the trimmed text
with markup intact when asked to preserve it. -/
theorem C9_amended :
    (∀ (m : ModelFn) (sys : String) (msg : IncomingMessage)
        (tools : List Tool) (t : Option String)
        (p : Option (String → Except JsError Unit)) (b₁ b₂ : Option Bool)
        (conv : List Message),
      converse m sys msg tools
          { tenantId := t, publishUpdate := p,
            preserveThinkingTags := b₁ } conv =
        converse m sys msg tools
          { tenantId := t, publishUpdate := p,
            preserveThinkingTags := b₂ } conv) ∧
    (∀ text, sanitizeResponse text { preserveThinkingTags := true } =
      jsTrim text) :=
  ⟨fun _ _ _ _ _ _ _ _ _ => rfl, fun _ => rfl⟩

/-! ## Claim C1 -/

/-- Concrete exception detail used by the C1 runs. -/
def c1Detail : ExceptionDetail :=
  { deliveryId := "DEL-1", contextId := "ctx-1",
    status := { status := "Damaged Package", reason := "crushed box" },
    orderValue := some 250 }

/-- C1 counterexample: under a total failure of the resolution loop (the
orchestrator round trip throws), the triage handler returns `undefined` —
no `ResolutionSummary` and no customer notification: the catch block only
logs.  This refutes the claim that the handler never returns without either
a summary or a customer notification. -/
theorem C1_counterexample :
    triageHandler
      (fun _ _ => .error ⟨"Error", "model transport failed"⟩)
      { detail := some c1Detail } = TriageResult.jsUndefined := rfl

/-- C1 (amended): the triage handler returns the 200 response wrapping the
supervisor loop's text when the orchestrator round trip succeeds; on a
malformed event (no `detail`) or any thrown error — including a total
failure of the resolution loop — it catches, logs, and returns `undefined`,
producing neither a `ResolutionSummary` nor a customer notification (its
direct email-tool wiring is commented out in the source, so the handler
itself never sends one). -/
theorem C1_amended : ∀ (send : String → String → Except JsError String)
    (ev : TriageEvent),
    (ev.detail = none → triageHandler send ev = .jsUndefined) ∧
    (∀ d r, ev.detail = some d →
      send (triageSystemPrompt d) (triageUserMessage d) = .ok r →
      triageHandler send ev = .response 200 true r) ∧
    (∀ d e, ev.detail = some d →
      send (triageSystemPrompt d) (triageUserMessage d) = .error e →
      triageHandler send ev = .jsUndefined) := by
  intro send ev
  refine ⟨?_, ?_, ?_⟩
  · intro h
    simp [triageHandler, h]
  · intro d r hd hs
    simp [triageHandler, hd, hs]
  · intro d e hd hs
    simp [triageHandler, hd, hs]

/-- Witness for `C1_amended`: a succeeding round trip yields the 200
response; a throwing one yields `undefined`. -/
theorem C1_amended_witness :
    triageHandler (fun _ _ => .ok "resolution summary")
        { detail := some c1Detail } =
      .response 200 true "resolution summary" ∧
    triageHandler (fun _ _ => .error { name := "Error", message := "boom" })
        { detail := some c1Detail } = .jsUndefined := by
  refine ⟨(C1_amended (fun _ _ => .ok "resolution summary")
    { detail := some c1Detail }).2.1 c1Detail "resolution summary" rfl rfl,
    ?_⟩
  exact (C1_amended (fun _ _ => .error { name := "Error", message := "boom" })
    { detail := some c1Detail }).2.2 c1Detail
    { name := "Error", message := "boom" } rfl rfl

/-! ## Claim C6 -/

/-- Inventory key of the C6 scenario. -/
def c6Key : String × String := ("t1#inventory", "product#P1")

/-- Initial store: product `P1` with 5 available, 0 allocated. -/
def c6Store0 : Store :=
  { inventory := [(c6Key, { availableQuantity := some 5,
                            allocatedQuantity := some 0 })],
    allocations := [] }

/-- First concurrent invocation: allocate 3 units for order `OA`. -/
def c6InpA : AllocInput :=
  { orderId := "OA", productId := "P1", quantity := 3, scenarioId := none }

/-- Second concurrent invocation: allocate 4 units for order `OB`. -/
def c6InpB : AllocInput :=
  { orderId := "OB", productId := "P1", quantity := 4, scenarioId := none }

/-- C6: the inventory write of `allocateInventory` is NOT conditional on the
prior state — the `UpdateItemCommand` it issues carries no
`ConditionExpression` (`condition := none` in the first conjunct) and SETs
quantities precomputed from the earlier read.  Consequently, two concurrent
invocations that both read the 5-unit snapshot both report success (first
two conjuncts), and under the read-read-write-write interleaving the final
record shows `availableQuantity 2 / allocatedQuantity 3`: the second
invocation's allocation of 4 units is silently overwritten instead of the
invocation failing.  A serialized run would instead have failed the second
invocation with the insufficient-inventory reply (last conjunct). -/
theorem C6_theorem :
    allocDecisionOn c6Store0 "t1" c6InpA =
      AllocDecision.allocate
        { key := ("t1#allocations", "OA#P1"),
          record := { orderId := "OA", productId := "P1",
                      quantityAllocated := 3, status := "allocated" },
          condition := none }
        { key := c6Key, newAvailable := 2, newAllocated := 3,
          condition := none }
        (allocSuccessMsg 3 "P1" "OA") ∧
    allocMsg (allocDecisionOn c6Store0 "t1" c6InpB) =
      allocSuccessMsg 4 "P1" "OB" ∧
    (allocApplyOn (allocApplyOn c6Store0 (allocDecisionOn c6Store0 "t1" c6InpB))
        (allocDecisionOn c6Store0 "t1" c6InpA)).inventory =
      [(c6Key, { availableQuantity := some 2, allocatedQuantity := some 3 })] ∧
    (allocRunOn (allocApplyOn c6Store0 (allocDecisionOn c6Store0 "t1" c6InpB))
        (some "t1") c6InpA).1 =
      allocInsufficientMsg "P1" 1 3 := ⟨rfl, rfl, rfl, rfl⟩

/-! ## Claim C10 -/

/-- C10 counterexample: invoking `allocateInventory.handler` with a missing
input object — exactly what happens when this multi-tenant tool is invoked
through the single-argument call shape — rejects with a `TypeError` raised by
the parameter destructuring, BEFORE the handler's try/catch: the exception
escapes to the caller instead of a result string. -/
theorem C10_counterexample :
    allocateInventoryHandler (some "t1") none
      { getInventory := .ok none, putAllocation := .ok (),
        updateInventory := .ok () } = .error typeErrorDestructure := rfl

/-- C10 (amended): for every tenant value, every OBJECT input and every
store outcome — record not found, insufficient stock, same-status short
circuit, conditional-check failure or any thrown storage/transport error —
each of the five domain tool handlers returns a plain result string
(`Except.ok`), never letting an exception escape; a thrown refund put, for
example, yields exactly the fixed failure string.  Only a missing/non-object
input argument escapes, via the parameter destructuring (see the
counterexample). -/
theorem C10_amended :
    (∀ tid inp env, ∃ s, processRefundHandler tid (some inp) env = .ok s) ∧
    (∀ tid inp env, ∃ s,
      allocateInventoryHandler tid (some inp) env = .ok s) ∧
    (∀ tid inp env, ∃ s,
      changeOrderStatusHandler tid (some inp) env = .ok s) ∧
    (∀ tid inp env, ∃ s, duplicateOrderHandler tid (some inp) env = .ok s) ∧
    (∀ inp env, ∃ s, sendCustomerEmailHandler (some inp) env = .ok s) ∧
    (∀ tid inp env (e : JsError), strTruthy tid = true →
      env.putRefund = .error e →
      processRefundHandler tid (some inp) env =
        .ok "Refund processing failed") := by
  refine ⟨fun tid inp env => ⟨_, rfl⟩, fun tid inp env => ⟨_, rfl⟩,
    fun tid inp env => ⟨_, rfl⟩, fun tid inp env => ⟨_, rfl⟩,
    fun inp env => ⟨_, rfl⟩, ?_⟩
  intro tid inp env e ht he
  simp [processRefundHandler, ht, he]

/-- Concrete refund input for the C10 witness. -/
def c10Inp : RefundInput :=
  { orderId := "ORD-1", refundAmount := 250, reason := "damaged_package",
    scenarioId := none }

/-- Witness for `C10_amended`: the concrete throwing put yields the fixed
failure string rather than an escaping exception. -/
theorem C10_amended_witness :
    processRefundHandler (some "t1") (some c10Inp)
      { putRefund := .error { name := "InternalServerError",
                              message := "dynamodb down" } } =
      .ok "Refund processing failed" := by
  exact C10_amended.2.2.2.2.2 (some "t1") c10Inp
    { putRefund := .error { name := "InternalServerError",
                            message := "dynamodb down" } }
    { name := "InternalServerError", message := "dynamodb down" } rfl rfl

end SwiftShip
